import Mathlib

/-!
# Verification of the proof-system core

Shallow embedding of the C++ proof kernel (term/formula model, rendering,
substitution, rule verifiers and the goal-stack proof engine) together with
theorems settling the specification claims.

Modelling conventions:

* `TermPtr` / `FormulaPtr` are nullable shared pointers in the source.  The
  Lean types `Term` and `Formula` therefore carry an explicit `null`
  constructor mirroring the null pointer.  Wherever the C++ guards against
  null (`if (!t) return ...`) the Lean definition has the corresponding
  `null` case; wherever the C++ would dereference a null pointer (undefined
  behaviour) the Lean definition returns a clearly marked sentinel value and
  a comment records the fact.  Trees built through the constructors never
  contain `null`; the only operation that manufactures a `null` node is
  variable substitution applied to a tuple (the C++ falls through to
  `return nullptr` there).

* The C++ engine signals failures with exceptions; the embedding returns
  `Except String` / a `Proof × Option String` pair, where `some msg`
  corresponds to `throw std::invalid_argument(msg)` and the returned state
  reflects exactly the mutations performed before the throw.

* Line-rule verifiers are `std::function` values; the built-in `ASSUMPTION`
  rule is a closure over the proof's current assumption list, so the Lean
  `LineRule` type receives the assumption list as an extra first argument
  (all other built-in rules ignore it).  The registered rules in the corpus
  are pure: none of them mutates the proof.
-/

namespace ProofSystem

/-- Terms of the language (`struct Term`, a `std::variant` with four
alternatives), plus `null` for the null `TermPtr`. -/
inductive Term : Type where
  | null : Term
  | var (v : String) : Term
  | const (c : String) : Term
  | func (f : String) (args : List Term) : Term
  | tuple (args : List Term) : Term

/-- Formulas of the language (`struct Formula`, a `std::variant` with eight
alternatives), plus `null` for the null `FormulaPtr`. -/
inductive Formula : Type where
  | null : Formula
  | eq (l r : Term) : Formula
  | rel (R : String) (args : List Term) : Formula
  | not (inner : Formula) : Formula
  | or (l r : Formula) : Formula
  | and (l r : Formula) : Formula
  | imp (l r : Formula) : Formula
  | all (v : String) (domain : Term) (inner : Formula) : Formula
  | ex (v : String) (domain : Term) (inner : Formula) : Formula

/-- Embeds `is_variable`: names of the shape `v<digits>` (nonempty digit part). -/
def is_variable (s : String) : Bool :=
  match s.data with
  | [] => false
  | c :: rest => c = 'v' && rest.all Char.isDigit && rest.length > 0

/-- Embeds `is_constant`: the constants are `"0"` and `"1"`. -/
def is_constant (s : String) : Bool := s = "0" || s = "1"

/-- Embeds `is_function`: `succ` (1-ary), `+` (2-ary), `*` (2-ary). -/
def is_function (s : String) (arity : Nat) : Bool :=
  (s = "succ" && arity = 1) || (s = "+" && arity = 2) || (s = "*" && arity = 2)

mutual

/-- Embeds `Term::to_string`.  Infix rendering for 2-ary `+`, `*`, `∈`; prefix
`f(a, b, ...)` otherwise.  The `TupleTerm` branch of the C++ builds its
output into a string stream but is missing the `return` statement, so the
function falls through and every tuple renders as `"?"`.  The `null` case
is a null-pointer dereference in C++ (undefined behaviour); the sentinel
below is never relied upon by a theorem. -/
def Term.toString : Term → String
  | Term.null => "NULL"
  | Term.var v => v
  | Term.const c => c
  | Term.func f args =>
    let rendered := Term.toStrings args
    match rendered with
    | [sa, sb] =>
      if f = "+" || f = "*" || f = "∈" then
        "(" ++ sa ++ " " ++ f ++ " " ++ sb ++ ")"
      else
        f ++ "(" ++ String.intercalate ", " rendered ++ ")"
    | _ => f ++ "(" ++ String.intercalate ", " rendered ++ ")"
  | Term.tuple _ => "?"
termination_by t => sizeOf t
decreasing_by all_goals simp_wf

/-- Renders a list of terms (the `for` loop over `p->args`). -/
def Term.toStrings : List Term → List String
  | [] => []
  | t :: ts => Term.toString t :: Term.toStrings ts
termination_by ts => sizeOf ts
decreasing_by all_goals (simp_wf <;> omega)

end

/-- Embeds `Formula::to_string`.  Infix rendering for 2-ary relations named `=`,
`∈`, `<`, `≤`, `>`; note that an `EqualityFormula` and a binary
`RelationFormula` named `"="` therefore render identically. -/
def Formula.toString : Formula → String
  | Formula.null => "NULLF"
  | Formula.eq l r => "(" ++ Term.toString l ++ " = " ++ Term.toString r ++ ")"
  | Formula.rel R args =>
    match args with
    | [a, b] =>
      if R = "=" || R = "∈" || R = "<" || R = "≤" || R = ">" then
        "(" ++ Term.toString a ++ " " ++ R ++ " " ++ Term.toString b ++ ")"
      else
        R ++ "(" ++ String.intercalate ", " (Term.toStrings args) ++ ")"
    | _ => R ++ "(" ++ String.intercalate ", " (Term.toStrings args) ++ ")"
  | Formula.not inner => "(¬" ++ Formula.toString inner ++ ")"
  | Formula.or l r => "(" ++ Formula.toString l ++ " ∨ " ++ Formula.toString r ++ ")"
  | Formula.and l r => "(" ++ Formula.toString l ++ " ∧ " ++ Formula.toString r ++ ")"
  | Formula.imp l r => "(" ++ Formula.toString l ++ " → " ++ Formula.toString r ++ ")"
  | Formula.all v domain inner =>
    "(∀" ++ v ++ " ∈ " ++ Term.toString domain ++ ")(" ++ Formula.toString inner ++ ")"
  | Formula.ex v domain inner =>
    "(∃" ++ v ++ " ∈ " ++ Term.toString domain ++ ")(" ++ Formula.toString inner ++ ")"

mutual

/-- Embeds `Term::is_well_formed(std::string *err)`.  Returns the boolean result
paired with the message written to the `err` out-parameter (`none` when the
function returns without writing a message).  The `TupleTerm` variant is not
matched by any `get_if` branch, so control falls through to the final
`return false` without writing `err` and without visiting the elements. -/
def Term.is_well_formed : Term → Bool × Option String
  | Term.null => (false, none)  -- method call through a null pointer in C++ (UB)
  | Term.var v =>
    if is_variable v then (true, none) else (false, some "bad var")
  | Term.const c =>
    if is_constant c then (true, none) else (false, some "bad const")
  | Term.func f args =>
    if is_function f args.length then Term.args_well_formed args
    else (false, some "bad function/arity")
  | Term.tuple _ => (false, none)

/-- The `for (auto &a : p->args)` loop of `Term::is_well_formed`: stops at
the first ill-formed argument, keeping that argument's error message. -/
def Term.args_well_formed : List Term → Bool × Option String
  | [] => (true, none)
  | a :: rest =>
    match Term.is_well_formed a with
    | (true, _) => Term.args_well_formed rest
    | (false, m) => (false, m)

end

mutual

/-- Embeds `substitute_in_term(u, var, t)`: variable substitution in a term.  The
C++ receives the variable as a `TermPtr` and reads its `VariableTerm` name
(every call site in the corpus passes `Term::make_variable(...)`), so the
embedding takes the name directly.  Note the missing `TupleTerm` branch in
the source: a tuple falls through to the final `return nullptr`. -/
def substitute_in_term : Term → String → Term → Term
  | Term.null, _, _ => Term.null
  | Term.var x, v, t => if x = v then t else Term.var x
  | Term.const c, _, _ => Term.const c
  | Term.func f args, v, t => Term.func f (substitute_in_terms args v t)
  | Term.tuple _, _, _ => Term.null

/-- The argument loop of `substitute_in_term` for `FunctionTerm`. -/
def substitute_in_terms : List Term → String → Term → List Term
  | [], _, _ => []
  | u :: us, v, t => substitute_in_term u v t :: substitute_in_terms us v t

end

/-- Embeds `substitute_in_formula(phi, var, t)`: variable substitution in a
formula.  A quantifier whose bound-variable name equals the substituted
name returns the whole subtree unchanged. -/
def substitute_in_formula : Formula → String → Term → Formula
  | Formula.null, _, _ => Formula.null
  | Formula.eq l r, v, t =>
    Formula.eq (substitute_in_term l v t) (substitute_in_term r v t)
  | Formula.rel R args, v, t => Formula.rel R (substitute_in_terms args v t)
  | Formula.not inner, v, t => Formula.not (substitute_in_formula inner v t)
  | Formula.or l r, v, t =>
    Formula.or (substitute_in_formula l v t) (substitute_in_formula r v t)
  | Formula.and l r, v, t =>
    Formula.and (substitute_in_formula l v t) (substitute_in_formula r v t)
  | Formula.imp l r, v, t =>
    Formula.imp (substitute_in_formula l v t) (substitute_in_formula r v t)
  | Formula.all bv domain inner, v, t =>
    if bv = v then Formula.all bv domain inner
    else Formula.all bv domain (substitute_in_formula inner v t)
  | Formula.ex bv domain inner, v, t =>
    if bv = v then Formula.ex bv domain inner
    else Formula.ex bv domain (substitute_in_formula inner v t)

mutual

/-- Embeds `substitute_term_in_term(u, pattern, replacement)`: whole-subterm
pattern substitution.  The match test compares *rendered strings*
(`u->to_string() == pattern->to_string()`). -/
def substitute_term_in_term : Term → Term → Term → Term
  | Term.null, _, _ => Term.null
  | Term.var x, pat, rep =>
    if Term.toString (Term.var x) = Term.toString pat then rep else Term.var x
  | Term.const c, pat, rep =>
    if Term.toString (Term.const c) = Term.toString pat then rep else Term.const c
  | Term.func f args, pat, rep =>
    if Term.toString (Term.func f args) = Term.toString pat then rep
    else Term.func f (substitute_term_in_terms args pat rep)
  | Term.tuple args, pat, rep =>
    if Term.toString (Term.tuple args) = Term.toString pat then rep
    else Term.tuple (substitute_term_in_terms args pat rep)

/-- The argument loops of `substitute_term_in_term`. -/
def substitute_term_in_terms : List Term → Term → Term → List Term
  | [], _, _ => []
  | u :: us, pat, rep =>
    substitute_term_in_term u pat rep :: substitute_term_in_terms us pat rep

end

/-- Embeds `substitute_term_in_formula(phi, pattern, replacement)`: applies
`substitute_term_in_term` to every term of the formula; quantifier bound
variables and domains are left untouched, only the body is rewritten. -/
def substitute_term_in_formula : Formula → Term → Term → Formula
  | Formula.null, _, _ => Formula.null
  | Formula.eq l r, pat, rep =>
    Formula.eq (substitute_term_in_term l pat rep) (substitute_term_in_term r pat rep)
  | Formula.rel R args, pat, rep => Formula.rel R (substitute_term_in_terms args pat rep)
  | Formula.not inner, pat, rep => Formula.not (substitute_term_in_formula inner pat rep)
  | Formula.or l r, pat, rep =>
    Formula.or (substitute_term_in_formula l pat rep) (substitute_term_in_formula r pat rep)
  | Formula.and l r, pat, rep =>
    Formula.and (substitute_term_in_formula l pat rep) (substitute_term_in_formula r pat rep)
  | Formula.imp l r, pat, rep =>
    Formula.imp (substitute_term_in_formula l pat rep) (substitute_term_in_formula r pat rep)
  | Formula.all v domain inner, pat, rep =>
    Formula.all v domain (substitute_term_in_formula inner pat rep)
  | Formula.ex v domain inner, pat, rep =>
    Formula.ex v domain (substitute_term_in_formula inner pat rep)

/-- One proof line (`struct ProofLine`). -/
structure ProofLine : Type where
  statement : Formula
  justification : String
  dependencies : List Int

/-- A line-rule verifier (`LineRule`).  The extra first argument is the
proof's current assumption list, because the built-in `ASSUMPTION` rule is
a lambda capturing `this` and reading `this->assumptions` at call time; the
other built-in rules ignore it. -/
def LineRule : Type := List Formula → List Formula → Formula → Except String Formula

/-- The `ASSUMPTION` closure registered by the `Proof` constructor: the
claim must render equal to some current assumption. -/
def assumption_closure : LineRule := fun assumptions _inputs claimed =>
  if assumptions.any (fun a => Formula.toString a = Formula.toString claimed) then
    Except.ok claimed
  else
    Except.error ("Invalid assumption: " ++ Formula.toString claimed)

/-- Embeds `and_rule`. -/
def and_rule (inputs : List Formula) (claimed : Formula) : Except String Formula :=
  match inputs with
  | [i0, i1] =>
    let expected := Formula.and i0 i1
    if Formula.toString expected = Formula.toString claimed then Except.ok claimed
    else Except.error "Claimed does not match AND result"
  | _ => Except.error "AND rule needs 2 inputs"

/-- Embeds `eq_rule`: no inputs; the claim must be an equality whose two sides
render equal. -/
def eq_rule (inputs : List Formula) (claimed : Formula) : Except String Formula :=
  match inputs with
  | [] =>
    match claimed with
    | Formula.eq l r =>
      if Term.toString l = Term.toString r then Except.ok claimed
      else Except.error "Left and right sides of equality are not equal"
    | _ => Except.error "Claimed formula is not an equality"
  | _ => Except.error "EQ_SIMPLIFY rule takes no inputs"

/-- Embeds `forall_rule`: input 0 a `Forall`, input 1 a binary relation named `∈`;
the two domains are compared by *rendered string*; the claim must render
equal to the instantiated body. -/
def forall_rule (inputs : List Formula) (claimed : Formula) : Except String Formula :=
  match inputs with
  | [i0, i1] =>
    match i0 with
    | Formula.all v domain inner =>
      match i1 with
      | Formula.rel R args =>
        match args with
        | [elem, fact_domain] =>
          if R = "∈" then
            if Term.toString domain = Term.toString fact_domain then
              let instantiated := substitute_in_formula inner v elem
              if Formula.toString instantiated = Formula.toString claimed then
                Except.ok claimed
              else
                Except.error ("Claimed formula " ++ Formula.toString claimed ++
                  " does not match derived formula " ++ Formula.toString instantiated)
            else Except.error "Element's domain does not match forall domain"
          else Except.error "Second input must be a membership relation (element ∈ domain)"
        | _ => Except.error "Second input must be a membership relation (element ∈ domain)"
      | _ => Except.error "Second input must be a membership relation (element ∈ domain)"
    | _ => Except.error "First input must be a forall formula"
  | _ => Except.error "FORALL rule requires 2 inputs: a forall and a term membership fact"

/-- Embeds `excluded_middle_rule` (`LEM`). -/
def excluded_middle_rule (inputs : List Formula) (claimed : Formula) :
    Except String Formula :=
  match inputs with
  | [] =>
    match claimed with
    | Formula.or l r =>
      match r with
      | Formula.not inner =>
        if Formula.toString l = Formula.toString inner then Except.ok claimed
        else Except.error "LEM: must be of the form (P ∨ ¬P)"
      | _ => Except.error "LEM: right-hand side is not a NOT"
    | _ => Except.error "LEM: claimed formula is not an OR"
  | _ => Except.error "LEM requires no inputs"

/-- Embeds `cases_rule`: both inputs must be implications whose consequents render
equal to the claim, and the *second* input's antecedent must be literally a
`Not` whose inner formula renders equal to the first input's antecedent. -/
def cases_rule (inputs : List Formula) (claimed : Formula) : Except String Formula :=
  match inputs with
  | [i0, i1] =>
    match i0 with
    | Formula.imp f t1 =>
      match i1 with
      | Formula.imp left2 t2 =>
        if Formula.toString t1 = Formula.toString claimed &&
            Formula.toString t2 = Formula.toString claimed then
          match left2 with
          | Formula.not inner =>
            if Formula.toString inner = Formula.toString f then Except.ok claimed
            else Except.error "CASES: mismatched f and ¬f assumptions"
          | _ => Except.error "CASES: second implication must have ¬f on the left side"
        else Except.error "CASES: both implications must derive the claimed formula"
      | _ => Except.error "CASES: second input must be an implication"
    | _ => Except.error "CASES: first input must be an implication"
  | _ => Except.error "CASES requires 2 inputs: (f -> t) and (¬f -> t)"

/-- Embeds `induction_rule`: input 0 the base instance, input 1 the step
`∀k (P(k) → P(k+1))`; the result is always `∀n ∈ ℕ` (the domain is
hard-coded, flagged `TODO: don't do this` in the source). -/
def induction_rule (inputs : List Formula) (claimed : Formula) : Except String Formula :=
  match inputs with
  | [base, step] =>
    match step with
    | Formula.all v _domain inner =>
      match inner with
      | Formula.imp Pk Pr =>
        let P0 := substitute_in_formula Pk v (Term.const "0")
        if Formula.toString P0 = Formula.toString base then
          let succ_term := Term.func "+" [Term.var v, Term.const "1"]
          let Psucc := substitute_in_formula Pk v succ_term
          if Formula.toString Pr = Formula.toString Psucc then
            let Pn := substitute_in_formula Pk v (Term.var "n")
            let result := Formula.all "n" (Term.const "ℕ") Pn
            if Formula.toString claimed = Formula.toString result then Except.ok claimed
            else
              Except.error ("Claimed " ++ Formula.toString claimed ++
                " does not match derived " ++ Formula.toString result)
          else Except.error "Step conclusion mismatch"
        else Except.error "Base mismatch"
      | _ => Except.error "Step must be an implication (P(k) → P(k+1))"
    | _ => Except.error "Step must be a forall formula"
  | _ => Except.error "INDUCTION requires 2 inputs: base P(0) and step ∀k(P(k) → P(k+1))"

/-- The proof engine's state (`class Proof`).  The rule registry is an
association list looked up front-to-back; `register_rule` prepends, which
gives the overwrite semantics of `rules[name] = rule`. -/
structure Proof : Type where
  lines : List ProofLine
  assumptions : List Formula
  targets : List Formula
  active_target_idx : Nat
  target_history : List (List Formula)
  rules : List (String × LineRule)

/-- The `Proof` constructor: stores the assumptions, makes the given target
the single pending target, and registers `ASSUMPTION`, `FORALL`, `EQ`,
`AND`. -/
def Proof.init (assumptions : List Formula) (target : Formula) : Proof where
  lines := []
  assumptions := assumptions
  targets := [target]
  active_target_idx := 0
  target_history := []
  rules :=
    [("ASSUMPTION", assumption_closure),
     ("FORALL", fun _ => forall_rule),
     ("EQ", fun _ => eq_rule),
     ("AND", fun _ => and_rule)]

/-- Embeds `Proof::register_rule`: `rules[name] = rule` (insert or overwrite; with
front-to-back lookup, prepending realises the overwrite). -/
def Proof.register_rule (s : Proof) (name : String) (rule : LineRule) : Proof :=
  { s with rules := (name, rule) :: s.rules }

/-- The dependency-gathering loop of `add_line_to_proof`: each index must
satisfy `0 ≤ idx < lines.size()`, otherwise `Invalid dependency index`. -/
def gather_deps (lines : List ProofLine) : List Int → Except String (List Formula)
  | [] => Except.ok []
  | idx :: rest =>
    if idx < 0 || (lines.length : Int) ≤ idx then
      Except.error "Invalid dependency index"
    else
      -- the guard ensures the index is in range, so the default is unused
      match gather_deps lines rest with
      | Except.error e => Except.error e
      | Except.ok fs =>
        Except.ok ((lines.getD idx.toNat ⟨Formula.null, "", []⟩).statement :: fs)

/-- The target-discharge loop of `add_line_to_proof`: finds the first
target rendering equal to the given string, removes it and reports its
index; `none` when no target matches. -/
def remove_first_match (render : String) : List Formula → Option (List Formula × Nat)
  | [] => none
  | t :: rest =>
    if Formula.toString t = render then some (rest, 0)
    else
      match remove_first_match render rest with
      | none => none
      | some (rest', i) => some (t :: rest', i + 1)

/-- Target discharge: remove the first matching target (if any) and adjust
the active index exactly when `active_target_idx >= i && active_target_idx > 0`. -/
def discharge_targets (targets : List Formula) (active : Nat) (claimed : Formula) :
    List Formula × Nat :=
  match remove_first_match (Formula.toString claimed) targets with
  | none => (targets, active)
  | some (targets', i) =>
    (targets', if i ≤ active && 0 < active then active - 1 else active)

/-- Embeds `Proof::add_line_to_proof`.  Returns the state after the call together
with `some message` when the C++ would throw (all throws happen before any
mutation) or `none` on success, in which case the line is appended and
target discharge runs. -/
def Proof.add_line_to_proof (s : Proof) (claimed : Formula) (rule_name : String)
    (deps : List Int) : Proof × Option String :=
  match s.rules.lookup rule_name with
  | none => (s, some ("Unknown rule: " ++ rule_name))
  | some rule =>
    match gather_deps s.lines deps with
    | Except.error e => (s, some e)
    | Except.ok dep_statements =>
      match rule s.assumptions dep_statements claimed with
      | Except.error e => (s, some e)
      | Except.ok derived =>
        if Formula.toString derived ≠ Formula.toString claimed then
          (s, some ("Claimed statement " ++ Formula.toString claimed ++
            " does not match derived " ++ Formula.toString derived))
        else
          ({ s with
              lines := s.lines ++ [⟨claimed, rule_name, deps⟩],
              targets := (discharge_targets s.targets s.active_target_idx claimed).1,
              active_target_idx :=
                (discharge_targets s.targets s.active_target_idx claimed).2 }, none)

/-- Embeds `Proof::instantiate_forall`.  The active target must be a `Forall`; the
witness is the requested term or a fresh variable named after the bound
variable; the appended membership assumption places the witness in the
hard-coded constant `ℕ` (the quantifier's own domain is ignored).  Reading
`targets[active_target_idx]` is unchecked in C++ beyond the emptiness test
(reachable states always have index 0); the `getD … Formula.null` default
covers the out-of-range case, where the source has undefined behaviour. -/
def Proof.instantiate_forall (s : Proof) (requested_variable : Option Term) :
    Proof × Option String :=
  if s.targets.isEmpty then (s, some "No active goals to instantiate")
  else
    match s.targets.getD s.active_target_idx Formula.null with
    | Formula.all v _domain inner =>
      let arbitrary_variable := requested_variable.getD (Term.var v)
      let membership_assumption :=
        Formula.rel "∈" [arbitrary_variable, Term.const "ℕ"]
      let new_goal := substitute_in_formula inner v arbitrary_variable
      ({ s with
          assumptions := s.assumptions ++ [membership_assumption],
          target_history := s.target_history ++ [s.targets],
          targets := s.targets.set s.active_target_idx new_goal }, none)
    | _ => (s, some "instantiate_forall: active goal is not a forall formula")

/-- Embeds `Proof::instantiate_implication`. -/
def Proof.instantiate_implication (s : Proof) : Proof × Option String :=
  if s.targets.isEmpty then (s, some "No active goals to instantiate")
  else
    match s.targets.getD s.active_target_idx Formula.null with
    | Formula.imp l r =>
      ({ s with
          assumptions := s.assumptions ++ [l],
          target_history := s.target_history ++ [s.targets],
          targets := s.targets.set s.active_target_idx r }, none)
    | _ => (s, some "instantiate_implication: active goal is not an implication formula")

/-- Embeds `Proof::get_active_target`: throws `Active goal index out of range`
when the index does not point into the target list. -/
def Proof.get_active_target (s : Proof) : Except String Formula :=
  if s.targets.length ≤ s.active_target_idx then
    Except.error "Active goal index out of range"
  else Except.ok (s.targets.getD s.active_target_idx Formula.null)

/-- Embeds `Proof::instantiate_induction`: replaces the active `Forall` target by
the base instance `P(0)` and appends the step target
`∀k ∈ ℕ (P(k) → P(k+1))` (with `k+1` the function application `+(k, 1)`),
keeping the active index on the base case. -/
def Proof.instantiate_induction (s : Proof) : Proof × Option String :=
  match s.get_active_target with
  | Except.error e => (s, some e)
  | Except.ok current_goal =>
    match current_goal with
    | Formula.all v _domain Pn =>
      let P0 := substitute_in_formula Pn v (Term.const "0")
      let succ_term := Term.func "+" [Term.var "k", Term.const "1"]
      let Pk := substitute_in_formula Pn v (Term.var "k")
      let Psucc := substitute_in_formula Pn v succ_term
      let step_forall :=
        Formula.all "k" (Term.const "ℕ") (Formula.imp Pk Psucc)
      ({ s with
          target_history := s.target_history ++ [s.targets],
          targets := (s.targets.set s.active_target_idx P0) ++ [step_forall] }, none)
    | _ => (s, some "instantiate_induction: active goal is not a forall formula")

/-- Embeds `Proof::rewrite_target_using_equality`: the cited line must hold an
equality `l = r`; the active target is rewritten by whole-subterm
substitution of `l` by `r`. -/
def Proof.rewrite_target_using_equality (s : Proof) (equality_proof_line : Int) :
    Proof × Option String :=
  if s.targets.isEmpty then (s, some "No active goals to rewrite")
  else if equality_proof_line < 0 || (s.lines.length : Int) ≤ equality_proof_line then
    (s, some "Invalid equality line index")
  else
    match (s.lines.getD equality_proof_line.toNat ⟨Formula.null, "", []⟩).statement with
    | Formula.eq lhs rhs =>
      let current_goal := s.targets.getD s.active_target_idx Formula.null
      let new_goal := substitute_term_in_formula current_goal lhs rhs
      ({ s with
          target_history := s.target_history ++ [s.targets],
          targets := s.targets.set s.active_target_idx new_goal }, none)
    | _ => (s, some "Selected line is not an equality")

/-- Embeds `Proof::is_valid`: the proof is complete exactly when no target
remains. -/
def Proof.is_valid (s : Proof) : Bool := s.targets.isEmpty

/-- One invocation of a mutating operation of the `Proof` class. -/
inductive Op : Type where
  | addLine (claimed : Formula) (rule_name : String) (deps : List Int) : Op
  | instForall (requested_variable : Option Term) : Op
  | instImplication : Op
  | instInduction : Op
  | rewriteEq (equality_proof_line : Int) : Op
  | regRule (name : String) (rule : LineRule) : Op

/-- Executes one operation, returning the state after the call and the
error message if the call threw. -/
def Op.apply (s : Proof) : Op → Proof × Option String
  | Op.addLine c r d => s.add_line_to_proof c r d
  | Op.instForall w => s.instantiate_forall w
  | Op.instImplication => s.instantiate_implication
  | Op.instInduction => s.instantiate_induction
  | Op.rewriteEq i => s.rewrite_target_using_equality i
  | Op.regRule n r => (s.register_rule n r, none)

/-- Whether an operation is one of the four goal tactics. -/
def Op.isTactic : Op → Bool
  | Op.instForall _ => true
  | Op.instImplication => true
  | Op.instInduction => true
  | Op.rewriteEq _ => true
  | _ => false

/-- Runs a sequence of operations, threading the state (errors leave the
state as the failing call left it, mirroring a caller that catches the
exception and continues). -/
def run_ops (s : Proof) : List Op → Proof
  | [] => s
  | op :: rest => run_ops (Op.apply s op).1 rest

/-- Counts the successful goal-tactic invocations in a run. -/
def count_tactic_successes (s : Proof) : List Op → Nat
  | [] => 0
  | op :: rest =>
    let r := Op.apply s op
    (if op.isTactic && r.2.isNone then 1 else 0) + count_tactic_successes r.1 rest

mutual

/-- Deep null-freeness of a term: holds exactly for the trees that can be
built through the `make_*` constructors (no null pointer anywhere). -/
def Term.null_free : Term → Bool
  | Term.null => false
  | Term.var _ => true
  | Term.const _ => true
  | Term.func _ args => Term.null_free_list args
  | Term.tuple args => Term.null_free_list args

/-- Null-freeness of a term list. -/
def Term.null_free_list : List Term → Bool
  | [] => true
  | t :: ts => Term.null_free t && Term.null_free_list ts

end

mutual

/-- Terms containing neither a null pointer nor a tuple: the fragment on
which variable substitution is total in the source. -/
def Term.plain : Term → Bool
  | Term.null => false
  | Term.var _ => true
  | Term.const _ => true
  | Term.func _ args => Term.plain_list args
  | Term.tuple _ => false

/-- Plainness of a term list. -/
def Term.plain_list : List Term → Bool
  | [] => true
  | t :: ts => Term.plain t && Term.plain_list ts

end

/-- Formulas all of whose terms are plain. -/
def Formula.plain : Formula → Bool
  | Formula.null => false
  | Formula.eq l r => Term.plain l && Term.plain r
  | Formula.rel _ args => Term.plain_list args
  | Formula.not inner => Formula.plain inner
  | Formula.or l r => Formula.plain l && Formula.plain r
  | Formula.and l r => Formula.plain l && Formula.plain r
  | Formula.imp l r => Formula.plain l && Formula.plain r
  | Formula.all _ domain inner => Term.plain domain && Formula.plain inner
  | Formula.ex _ domain inner => Term.plain domain && Formula.plain inner

mutual

/-- Modelled from the spec (§4.3, `substVar`): replaces every leaf Variable
whose name equals the variable's name by the replacement term, recursing
through Function and Tuple arguments.  Second definition of variable
substitution, written from the spec's words, to be compared with
`substitute_in_term`, the one translated from the source (which differs in
the Tuple case). -/
def spec_substVar_term : Term → String → Term → Term
  | Term.null, _, _ => Term.null
  | Term.var x, v, t => if x = v then t else Term.var x
  | Term.const c, _, _ => Term.const c
  | Term.func f args, v, t => Term.func f (spec_substVar_terms args v t)
  | Term.tuple args, v, t => Term.tuple (spec_substVar_terms args v t)

/-- Spec-modelled substitution mapped over a term list. -/
def spec_substVar_terms : List Term → String → Term → List Term
  | [], _, _ => []
  | u :: us, v, t => spec_substVar_term u v t :: spec_substVar_terms us v t

end

/-- Modelled from the spec (§4.3, `substVar` on formulas): recurses through
every connective; a quantifier whose own bound-variable name equals the
substituted name returns the subtree unchanged (no descent). -/
def spec_substVar_formula : Formula → String → Term → Formula
  | Formula.null, _, _ => Formula.null
  | Formula.eq l r, v, t =>
    Formula.eq (spec_substVar_term l v t) (spec_substVar_term r v t)
  | Formula.rel R args, v, t => Formula.rel R (spec_substVar_terms args v t)
  | Formula.not inner, v, t => Formula.not (spec_substVar_formula inner v t)
  | Formula.or l r, v, t =>
    Formula.or (spec_substVar_formula l v t) (spec_substVar_formula r v t)
  | Formula.and l r, v, t =>
    Formula.and (spec_substVar_formula l v t) (spec_substVar_formula r v t)
  | Formula.imp l r, v, t =>
    Formula.imp (spec_substVar_formula l v t) (spec_substVar_formula r v t)
  | Formula.all bv domain inner, v, t =>
    if bv = v then Formula.all bv domain inner
    else Formula.all bv domain (spec_substVar_formula inner v t)
  | Formula.ex bv domain inner, v, t =>
    if bv = v then Formula.ex bv domain inner
    else Formula.ex bv domain (spec_substVar_formula inner v t)

mutual

/-- On plain terms (no nulls, no tuples) the source's variable substitution
agrees with the spec-modelled one. -/
theorem substVar_term_agrees : ∀ (u : Term), Term.plain u = true →
    ∀ (v : String) (t : Term), substitute_in_term u v t = spec_substVar_term u v t
  | Term.null, h, _, _ => by simp [Term.plain] at h
  | Term.var _, _, _, _ => by simp [substitute_in_term, spec_substVar_term]
  | Term.const _, _, _, _ => by simp [substitute_in_term, spec_substVar_term]
  | Term.func f args, h, v, t => by
    have hargs : Term.plain_list args = true := by simpa [Term.plain] using h
    simp [substitute_in_term, spec_substVar_term,
      substVar_terms_agree args hargs v t]
  | Term.tuple _, h, _, _ => by simp [Term.plain] at h

/-- List version of `substVar_term_agrees`. -/
theorem substVar_terms_agree : ∀ (us : List Term), Term.plain_list us = true →
    ∀ (v : String) (t : Term), substitute_in_terms us v t = spec_substVar_terms us v t
  | [], _, _, _ => by simp [substitute_in_terms, spec_substVar_terms]
  | u :: us, h, v, t => by
    have h1 : Term.plain u = true ∧ Term.plain_list us = true := by
      simpa [Term.plain_list, Bool.and_eq_true] using h
    simp [substitute_in_terms, spec_substVar_terms,
      substVar_term_agrees u h1.1 v t, substVar_terms_agree us h1.2 v t]

end

/-- On plain formulas the source's variable substitution agrees with the
spec-modelled one. -/
theorem substVar_formula_agrees (phi : Formula) : ∀ (v : String) (t : Term),
    Formula.plain phi = true →
    substitute_in_formula phi v t = spec_substVar_formula phi v t := by
  induction phi with
  | null => intro v t h; simp [Formula.plain] at h
  | eq l r =>
    intro v t h
    have h1 : Term.plain l = true ∧ Term.plain r = true := by
      simpa [Formula.plain, Bool.and_eq_true] using h
    simp [substitute_in_formula, spec_substVar_formula,
      substVar_term_agrees l h1.1 v t, substVar_term_agrees r h1.2 v t]
  | rel R args =>
    intro v t h
    have hargs : Term.plain_list args = true := by simpa [Formula.plain] using h
    simp [substitute_in_formula, spec_substVar_formula, substVar_terms_agree args hargs v t]
  | not inner ih =>
    intro v t h
    have hi : Formula.plain inner = true := by simpa [Formula.plain] using h
    simp [substitute_in_formula, spec_substVar_formula, ih v t hi]
  | or l r ihl ihr =>
    intro v t h
    have h1 : Formula.plain l = true ∧ Formula.plain r = true := by
      simpa [Formula.plain, Bool.and_eq_true] using h
    simp [substitute_in_formula, spec_substVar_formula, ihl v t h1.1, ihr v t h1.2]
  | and l r ihl ihr =>
    intro v t h
    have h1 : Formula.plain l = true ∧ Formula.plain r = true := by
      simpa [Formula.plain, Bool.and_eq_true] using h
    simp [substitute_in_formula, spec_substVar_formula, ihl v t h1.1, ihr v t h1.2]
  | imp l r ihl ihr =>
    intro v t h
    have h1 : Formula.plain l = true ∧ Formula.plain r = true := by
      simpa [Formula.plain, Bool.and_eq_true] using h
    simp [substitute_in_formula, spec_substVar_formula, ihl v t h1.1, ihr v t h1.2]
  | all bv domain inner ih =>
    intro v t h
    have h1 : Formula.plain inner = true := by
      simp [Formula.plain, Bool.and_eq_true] at h; exact h.2
    by_cases hbv : bv = v <;>
      simp [substitute_in_formula, spec_substVar_formula, hbv, ih v t h1]
  | ex bv domain inner ih =>
    intro v t h
    have h1 : Formula.plain inner = true := by
      simp [Formula.plain, Bool.and_eq_true] at h; exact h.2
    by_cases hbv : bv = v <;>
      simp [substitute_in_formula, spec_substVar_formula, hbv, ih v t h1]

/-- An `EqualityFormula` and the corresponding binary `RelationFormula`
named `"="` always render to the same string. -/
theorem eq_rel_render_eq (a b : Term) :
    Formula.toString (Formula.eq a b) = Formula.toString (Formula.rel "=" [a, b]) := by
  simp only [Formula.toString]
  apply String.ext
  simp [String.data_append]

/-- A successful `add_line_to_proof` appends exactly the new line and
performs target discharge; nothing else changes. -/
theorem add_line_success_shape (s : Proof) (c : Formula) (r : String) (d : List Int)
    (s2 : Proof) (h : s.add_line_to_proof c r d = (s2, none)) :
    s2.targets = (discharge_targets s.targets s.active_target_idx c).1 ∧
    s2.active_target_idx = (discharge_targets s.targets s.active_target_idx c).2 ∧
    s2.assumptions = s.assumptions ∧
    s2.target_history = s.target_history ∧
    s2.lines = s.lines ++ [⟨c, r, d⟩] := by
  unfold Proof.add_line_to_proof at h
  repeat' split at h
  all_goals injection h with h1 h2
  all_goals try cases h2
  subst h1
  simp

/-- Removing the first rendered-string match shortens the list by one. -/
theorem remove_first_match_length (r : String) :
    ∀ (ts ts2 : List Formula) (i : Nat),
      remove_first_match r ts = some (ts2, i) → ts2.length + 1 = ts.length
  | [], _, _ => by simp [remove_first_match]
  | t :: rest, ts2, i => by
    intro h
    unfold remove_first_match at h
    split at h
    · obtain ⟨h1, _⟩ := Prod.mk.injEq .. ▸ (Option.some.injEq .. ▸ h)
      subst h1; simp
    · cases hrec : remove_first_match r rest with
      | none => rw [hrec] at h; cases h
      | some p =>
        obtain ⟨rest2, j⟩ := p
        rw [hrec] at h
        obtain ⟨h1, _⟩ := Prod.mk.injEq .. ▸ (Option.some.injEq .. ▸ h)
        subst h1
        have := remove_first_match_length r rest rest2 j hrec
        simpa using congrArg Nat.succ this

/-- Removing the first rendered-string match lowers the number of matching
occurrences by exactly one (even when the match occurs several times). -/
theorem remove_first_match_countP (r : String) :
    ∀ (ts ts2 : List Formula) (i : Nat),
      remove_first_match r ts = some (ts2, i) →
      ts2.countP (fun t => decide (Formula.toString t = r)) + 1
        = ts.countP (fun t => decide (Formula.toString t = r))
  | [], _, _ => by simp [remove_first_match]
  | t :: rest, ts2, i => by
    intro h
    unfold remove_first_match at h
    split at h
    · rename_i hmatch
      obtain ⟨h1, _⟩ := Prod.mk.injEq .. ▸ (Option.some.injEq .. ▸ h)
      subst h1
      simp [List.countP_cons, hmatch]
    · rename_i hmatch
      cases hrec : remove_first_match r rest with
      | none => rw [hrec] at h; cases h
      | some p =>
        obtain ⟨rest2, j⟩ := p
        rw [hrec] at h
        obtain ⟨h1, _⟩ := Prod.mk.injEq .. ▸ (Option.some.injEq .. ▸ h)
        subst h1
        have := remove_first_match_countP r rest rest2 j hrec
        simp [List.countP_cons, hmatch]
        omega

/-- The removed index returned by `remove_first_match` is the position of
the erased element: the result is the original list without position `i`. -/
theorem remove_first_match_eraseIdx (r : String) :
    ∀ (ts ts2 : List Formula) (i : Nat),
      remove_first_match r ts = some (ts2, i) → ts2 = ts.eraseIdx i
  | [], _, _ => by simp [remove_first_match]
  | t :: rest, ts2, i => by
    intro h
    unfold remove_first_match at h
    split at h
    · obtain ⟨h1, h2⟩ := Prod.mk.injEq .. ▸ (Option.some.injEq .. ▸ h)
      subst h1; subst h2; simp
    · cases hrec : remove_first_match r rest with
      | none => rw [hrec] at h; cases h
      | some p =>
        obtain ⟨rest2, j⟩ := p
        rw [hrec] at h
        obtain ⟨h1, h2⟩ := Prod.mk.injEq .. ▸ (Option.some.injEq .. ▸ h)
        subst h1; subst h2
        have := remove_first_match_eraseIdx r rest rest2 j hrec
        simp [this, List.eraseIdx]

/-- Every operation's effect on the target history: a successful tactic
pushes exactly the pre-call snapshot, everything else leaves the history
untouched (in particular nothing ever pops it). -/
theorem op_apply_target_history (s : Proof) (op : Op) :
    (Op.apply s op).1.target_history =
      (if op.isTactic && (Op.apply s op).2.isNone then s.target_history ++ [s.targets]
       else s.target_history) := by
  cases op <;>
    simp only [Op.apply, Op.isTactic, Proof.add_line_to_proof, Proof.instantiate_forall,
      Proof.instantiate_implication, Proof.instantiate_induction,
      Proof.rewrite_target_using_equality, Proof.register_rule, Proof.get_active_target] <;>
    (repeat' split) <;> simp_all

/-- Example formula `P(x)`. -/
def cxP : Formula := Formula.rel "P" [Term.var "x"]

/-- Example formula `Q(x)`. -/
def cxQ : Formula := Formula.rel "Q" [Term.var "x"]

/-- Example formula `x = y` built as an `EqualityFormula`. -/
def c1A : Formula := Formula.eq (Term.var "x") (Term.var "y")

/-- Example formula `=(x, y)` built as a binary `RelationFormula` named `=`:
structurally different from `c1A` but rendering to the same string. -/
def c1B : Formula := Formula.rel "=" [Term.var "x", Term.var "y"]

/-- Proof state whose assumption is the `EqualityFormula` and whose target
is the `RelationFormula` version of `x = y`. -/
def c1S : Proof := Proof.init [c1A] c1B

/-- Example body `v1 = 5`. -/
def c3body : Formula := Formula.eq (Term.var "v1") (Term.const "5")

/-- Proof state whose target is `(∀v1 ∈ X)(v1 = 5)` — note the domain is
the constant `X`, not `ℕ`. -/
def c3S : Proof := Proof.init [] (Formula.all "v1" (Term.const "X") c3body)

/-- A proof state holding the same formula twice in its target list, with
the active index pointing at the second copy. -/
def W2 : Proof :=
  { lines := [], assumptions := [cxP], targets := [cxP, cxP], active_target_idx := 1,
    target_history := [], rules := [("ASSUMPTION", assumption_closure)] }

/-- The state `W2` after adding the line `P(x)` by `ASSUMPTION`: the line
is appended, the first copy of the target is discharged, and the active
index is decremented. -/
def W2out : Proof :=
  { lines := [⟨cxP, "ASSUMPTION", []⟩], assumptions := [cxP], targets := [cxP],
    active_target_idx := 0, target_history := [],
    rules := [("ASSUMPTION", assumption_closure)] }

/-- Fresh proof state used to exercise a rejected line. -/
def W7 : Proof := Proof.init [] cxQ

/-- Proof state whose single target is the implication `P(x) → Q(x)`. -/
def W8 : Proof := Proof.init [] (Formula.imp cxP cxQ)

/-- C1, counterexample.  The claim says no two structurally distinct trees
are ever treated as equal by rule matching or target discharge; but adding
the `EqualityFormula` `x = y` by `ASSUMPTION` is accepted and discharges
the structurally different `RelationFormula` target `=(x, y)`. -/
theorem claim_C1_counterexample :
    (c1S.add_line_to_proof c1A "ASSUMPTION" []).2 = none ∧
    (c1S.add_line_to_proof c1A "ASSUMPTION" []).1.targets = [] ∧
    c1A ≠ c1B := by
  refine ⟨?_, ?_, by simp [c1A, c1B]⟩ <;>
    simp [c1S, c1A, c1B, Proof.init, Proof.add_line_to_proof, List.lookup, gather_deps,
      assumption_closure, discharge_targets, remove_first_match, Formula.toString,
      Term.toString, Term.toStrings]

/-- C1, amended.  The equality used by rule matching and target discharge
is equality of rendered strings: structurally equal formulas always compare
equal, but structurally distinct trees with identical renderings — such as
an `EqualityFormula(a,b)` versus a `RelationFormula` named `=` with
arguments `[a, b]` — are also treated as equal, and target discharge cannot
distinguish two claims that render to the same string. -/
theorem claim_C1_equality_is_rendering :
    (∀ f g : Formula, f = g → Formula.toString f = Formula.toString g) ∧
    (∀ a b : Term,
      Formula.toString (Formula.eq a b) = Formula.toString (Formula.rel "=" [a, b]) ∧
      Formula.eq a b ≠ Formula.rel "=" [a, b]) ∧
    (∀ (targets : List Formula) (active : Nat) (f g : Formula),
      Formula.toString f = Formula.toString g →
      discharge_targets targets active f = discharge_targets targets active g) := by
  refine ⟨fun f g h => by rw [h],
    fun a b => ⟨eq_rel_render_eq a b, by simp⟩, ?_⟩
  intro ts act f g h
  simp [discharge_targets, h]

/-- Witness for C1: the concrete pair `x = y` (equality node) and `=(x, y)`
(relation node) renders identically, so discharge treats them alike. -/
theorem claim_C1_witness :
    Formula.toString c1A = Formula.toString c1B ∧
    discharge_targets [c1B] 0 c1A = discharge_targets [c1B] 0 c1B := by
  have h : Formula.toString c1A = Formula.toString c1B := by
    simp [c1A, c1B, Formula.toString, Term.toString, Term.toStrings]
  exact ⟨h, claim_C1_equality_is_rendering.2.2 [c1B] 0 c1A c1B h⟩

/-- C2.  An accepted line whose formula matches a target (under the
engine's formula comparison, which is rendered-string equality) removes
exactly one matching occurrence — the first — so the target count drops by
exactly one even when the formula occurs several times; and the active
index is decremented exactly when the removed position is at or before it
and it is nonzero. -/
theorem claim_C2_discharge_exactly_one (s : Proof) (c : Formula) (r : String)
    (d : List Int) (s2 : Proof) (ts2 : List Formula) (i : Nat)
    (h : s.add_line_to_proof c r d = (s2, none))
    (hm : remove_first_match (Formula.toString c) s.targets = some (ts2, i)) :
    s2.targets = ts2 ∧
    s2.targets = s.targets.eraseIdx i ∧
    s2.targets.length + 1 = s.targets.length ∧
    s2.targets.countP (fun t => decide (Formula.toString t = Formula.toString c)) + 1
      = s.targets.countP (fun t => decide (Formula.toString t = Formula.toString c)) ∧
    s2.active_target_idx =
      (if i ≤ s.active_target_idx && 0 < s.active_target_idx
       then s.active_target_idx - 1 else s.active_target_idx) := by
  obtain ⟨ht, ha, -, -, -⟩ := add_line_success_shape s c r d s2 h
  have hd : discharge_targets s.targets s.active_target_idx c =
      (ts2, if i ≤ s.active_target_idx && 0 < s.active_target_idx
            then s.active_target_idx - 1 else s.active_target_idx) := by
    simp [discharge_targets, hm]
  rw [hd] at ht ha
  refine ⟨ht, ?_, ?_, ?_, ha⟩
  · rw [ht]; exact remove_first_match_eraseIdx _ _ _ _ hm
  · rw [ht]; exact remove_first_match_length _ _ _ _ hm
  · rw [ht]; exact remove_first_match_countP _ _ _ _ hm

/-- Witness for C2: a state with the same target twice; the accepted line
removes only the first copy and the active index moves from 1 to 0. -/
theorem claim_C2_witness :
    W2.add_line_to_proof cxP "ASSUMPTION" [] = (W2out, none) ∧
    remove_first_match (Formula.toString cxP) W2.targets = some ([cxP], 0) ∧
    W2out.targets = [cxP] ∧
    W2out.targets.length + 1 = W2.targets.length ∧
    W2out.active_target_idx =
      (if 0 ≤ W2.active_target_idx && 0 < W2.active_target_idx
       then W2.active_target_idx - 1 else W2.active_target_idx) := by
  have h : W2.add_line_to_proof cxP "ASSUMPTION" [] = (W2out, none) := by
    simp [W2, W2out, cxP, Proof.add_line_to_proof, List.lookup, gather_deps,
      assumption_closure, discharge_targets, remove_first_match, Formula.toString,
      Term.toString, Term.toStrings]
  have hm : remove_first_match (Formula.toString cxP) W2.targets = some ([cxP], 0) := by
    simp [W2, remove_first_match]
  have h3 := claim_C2_discharge_exactly_one W2 cxP "ASSUMPTION" [] W2out [cxP] 0 h hm
  exact ⟨h, hm, h3.1, h3.2.2.1, h3.2.2.2.2⟩

/-- C3, counterexample.  The claim says the appended membership assumption
places the witness in the quantifier's own domain; but for the target
`(∀v1 ∈ X)(v1 = 5)` the assumption appended by `instantiate_forall` is
`(v1 ∈ ℕ)` — the hard-coded constant `ℕ` — not `(v1 ∈ X)`. -/
theorem claim_C3_counterexample :
    (c3S.instantiate_forall none).2 = none ∧
    (c3S.instantiate_forall none).1.assumptions
      = [Formula.rel "∈" [Term.var "v1", Term.const "ℕ"]] ∧
    Formula.rel "∈" [Term.var "v1", Term.const "ℕ"]
      ≠ Formula.rel "∈" [Term.var "v1", Term.const "X"] := by
  refine ⟨rfl, rfl, by simp⟩

/-- C3, amended.  On a `Forall` active target, `instantiate_forall` chooses
the supplied witness (or a fresh variable named after the bound variable),
appends the membership assumption placing the witness in the hard-coded
constant `ℕ` (the quantifier's own domain is ignored), pushes the pre-call
snapshot of the target list onto the history, and replaces the active
target by the body under variable substitution. -/
theorem claim_C3_membership_hardcoded (s : Proof) (v : String) (dom : Term)
    (body : Formula) (w : Option Term) (h1 : s.targets.isEmpty = false)
    (h2 : s.targets.getD s.active_target_idx Formula.null = Formula.all v dom body) :
    s.instantiate_forall w =
      ({ s with
          assumptions := s.assumptions ++
            [Formula.rel "∈" [w.getD (Term.var v), Term.const "ℕ"]],
          target_history := s.target_history ++ [s.targets],
          targets := s.targets.set s.active_target_idx
            (substitute_in_formula body v (w.getD (Term.var v))) }, none) := by
  have h2x : (s.targets[s.active_target_idx]?).getD Formula.null
      = Formula.all v dom body := by simpa [List.getD] using h2
  simp [Proof.instantiate_forall, h1, h2x]

/-- Witness for C3: instantiating the target `(∀v1 ∈ X)(v1 = 5)` with no
requested witness. -/
theorem claim_C3_witness :
    c3S.targets.isEmpty = false ∧
    c3S.targets.getD c3S.active_target_idx Formula.null
      = Formula.all "v1" (Term.const "X") c3body ∧
    c3S.instantiate_forall none =
      ({ c3S with
          assumptions := c3S.assumptions ++
            [Formula.rel "∈" [Term.var "v1", Term.const "ℕ"]],
          target_history := c3S.target_history ++ [c3S.targets],
          targets := c3S.targets.set c3S.active_target_idx
            (substitute_in_formula c3body "v1" (Term.var "v1")) }, none) :=
  ⟨rfl, rfl, claim_C3_membership_hardcoded c3S "v1" (Term.const "X") c3body none rfl rfl⟩

/-- C4, counterexample.  The claim says variable substitution recurses
through Tuple arguments, a Tuple input yielding a Tuple with substituted
arguments; but the source's `substitute_in_term` has no `TupleTerm` branch
and falls through to `return nullptr`: a tuple input yields the null term. -/
theorem claim_C4_counterexample :
    substitute_in_term (Term.tuple [Term.var "v1"]) "v1" (Term.const "0") = Term.null ∧
    substitute_in_term (Term.tuple [Term.var "v1"]) "v1" (Term.const "0")
      ≠ Term.tuple [Term.const "0"] := by
  constructor
  · simp [substitute_in_term]
  · simp [substitute_in_term]

/-- C4, amended.  Variable substitution replaces matching variable leaves,
recurses through Function arguments and every formula connective (with the
quantifier-shadowing stop), exactly as the spec describes, on every term
and formula free of tuples; but a Tuple input yields the null term rather
than a substituted Tuple. -/
theorem claim_C4_substitution_behaviour :
    (∀ (phi : Formula) (v : String) (t : Term), Formula.plain phi = true →
        substitute_in_formula phi v t = spec_substVar_formula phi v t) ∧
    (∀ (u : Term) (v : String) (t : Term), Term.plain u = true →
        substitute_in_term u v t = spec_substVar_term u v t) ∧
    (∀ (args : List Term) (v : String) (t : Term),
        substitute_in_term (Term.tuple args) v t = Term.null) :=
  ⟨fun phi v t h => substVar_formula_agrees phi v t h,
   fun u v t h => substVar_term_agrees u h v t,
   fun _ _ _ => by simp [substitute_in_term]⟩

/-- Witness for C4: substituting `v1 := 0` in the plain term `v1 + 1`. -/
theorem claim_C4_witness :
    Term.plain (Term.func "+" [Term.var "v1", Term.const "1"]) = true ∧
    substitute_in_term (Term.func "+" [Term.var "v1", Term.const "1"]) "v1" (Term.const "0")
      = spec_substVar_term (Term.func "+" [Term.var "v1", Term.const "1"]) "v1"
          (Term.const "0") := by
  have h : Term.plain (Term.func "+" [Term.var "v1", Term.const "1"]) = true := by
    simp [Term.plain, Term.plain_list]
  exact ⟨h, claim_C4_substitution_behaviour.2.1 _ "v1" (Term.const "0") h⟩

/-- C5, counterexample.  The claim says there is no pair of distinct domain
terms for which `FORALL` accepts; but the domains are compared by rendered
string, so the distinct terms `Constant "X"` and `Variable "X"` (identical
rendering) are accepted. -/
theorem claim_C5_counterexample :
    forall_rule
        [Formula.all "v1" (Term.const "X") (Formula.eq (Term.var "v1") (Term.const "5")),
         Formula.rel "∈" [Term.var "y", Term.var "X"]]
        (Formula.eq (Term.var "y") (Term.const "5"))
      = Except.ok (Formula.eq (Term.var "y") (Term.const "5")) ∧
    (Term.const "X" : Term) ≠ Term.var "X" := by
  constructor
  · simp [forall_rule, substitute_in_formula, substitute_in_term, substitute_in_terms,
      Formula.toString, Term.toString, Term.toStrings]
  · simp

/-- C5, amended.  `FORALL` fails whenever the membership relation's domain
differs from the quantifier's domain in rendered form, even when the bound
variable name matches; distinct domain terms with identical renderings,
however, are accepted. -/
theorem claim_C5_domain_render_check (v : String) (dom : Term) (inner : Formula)
    (elem fdom : Term) (claimed : Formula)
    (h : Term.toString dom ≠ Term.toString fdom) :
    forall_rule [Formula.all v dom inner, Formula.rel "∈" [elem, fdom]] claimed
      = Except.error "Element's domain does not match forall domain" := by
  simp [forall_rule, h]

/-- Witness for C5: domain `X` against membership domain `Y`. -/
theorem claim_C5_witness :
    Term.toString (Term.const "X") ≠ Term.toString (Term.const "Y") ∧
    forall_rule [Formula.all "v1" (Term.const "X") c3body,
        Formula.rel "∈" [Term.var "y", Term.const "Y"]] c3body
      = Except.error "Element's domain does not match forall domain" := by
  have h : Term.toString (Term.const "X") ≠ Term.toString (Term.const "Y") := by
    simp [Term.toString]
  exact ⟨h, claim_C5_domain_render_check "v1" (Term.const "X") c3body (Term.var "y")
    (Term.const "Y") c3body h⟩

/-- C6, counterexample.  The claim says `CASES` also succeeds when the two
dependencies are supplied in swapped positions; but with dependencies
`¬P(x) → Q(x)` (first) and `P(x) → Q(x)` (second) the rule fails, because
it requires specifically the second dependency's antecedent to be a `Not`
of the first's — while the unswapped order succeeds. -/
theorem claim_C6_counterexample :
    cases_rule [Formula.imp cxP cxQ, Formula.imp (Formula.not cxP) cxQ] cxQ
      = Except.ok cxQ ∧
    cases_rule [Formula.imp (Formula.not cxP) cxQ, Formula.imp cxP cxQ] cxQ
      = Except.error "CASES: second implication must have ¬f on the left side" := by
  constructor <;>
    simp [cases_rule, cxP, cxQ, Formula.toString, Term.toString, Term.toStrings]

/-- C6, amended.  Given two implication dependencies, `CASES` succeeds
exactly when both consequents render equal to the claim and the second
dependency's antecedent is literally a `Not` whose inner formula renders
equal to the first dependency's antecedent; the rule is therefore not
symmetric in the two positions. -/
theorem claim_C6_cases_characterization (f t1 g t2 claimed : Formula) :
    cases_rule [Formula.imp f t1, Formula.imp g t2] claimed = Except.ok claimed ↔
      (Formula.toString t1 = Formula.toString claimed ∧
       Formula.toString t2 = Formula.toString claimed ∧
       ∃ inner, g = Formula.not inner ∧
         Formula.toString inner = Formula.toString f) := by
  cases g <;>
    by_cases h1 : Formula.toString t1 = Formula.toString claimed <;>
    by_cases h2 : Formula.toString t2 = Formula.toString claimed <;>
    simp [cases_rule, h1, h2]

/-- C7.  A rejected `add_line_to_proof` — unknown rule, invalid dependency
index, or rule violation — leaves the entire proof state exactly as it was
before the call: no partial append and no target discharge. -/
theorem claim_C7_rejected_line_preserves_state (s : Proof) (c : Formula) (r : String)
    (d : List Int) (s2 : Proof) (e : String)
    (h : s.add_line_to_proof c r d = (s2, some e)) : s2 = s := by
  unfold Proof.add_line_to_proof at h
  repeat' split at h
  all_goals injection h with h1 h2
  all_goals first | exact h1.symm | cases h2

/-- Witness for C7: citing an unregistered rule name leaves the state
untouched. -/
theorem claim_C7_witness :
    W7.add_line_to_proof cxP "NOPE" []
      = ((W7.add_line_to_proof cxP "NOPE" []).1, some "Unknown rule: NOPE") ∧
    (W7.add_line_to_proof cxP "NOPE" []).1 = W7 := by
  have h : W7.add_line_to_proof cxP "NOPE" []
      = ((W7.add_line_to_proof cxP "NOPE" []).1, some "Unknown rule: NOPE") := rfl
  exact ⟨h, claim_C7_rejected_line_preserves_state W7 cxP "NOPE" [] _ _ h⟩

/-- C8.  Every successful goal-tactic invocation pushes exactly one entry
onto the target-history stack — the pre-call snapshot of the target list;
failed tactics and non-tactic operations leave the stack untouched (nothing
ever pops it); consequently over any run the history length equals the
number of successful tactic invocations. -/
theorem claim_C8_history_discipline :
    (∀ (s : Proof) (op : Op), op.isTactic = true → (Op.apply s op).2 = none →
        (Op.apply s op).1.target_history = s.target_history ++ [s.targets]) ∧
    (∀ (s : Proof) (op : Op), (Op.apply s op).2 ≠ none →
        (Op.apply s op).1.target_history = s.target_history) ∧
    (∀ (s : Proof) (op : Op), op.isTactic = false →
        (Op.apply s op).1.target_history = s.target_history) ∧
    (∀ (s : Proof) (ops : List Op),
        (run_ops s ops).target_history.length
          = s.target_history.length + count_tactic_successes s ops) := by
  refine ⟨?_, ?_, ?_, ?_⟩
  · intro s op h1 h2
    rw [op_apply_target_history s op]
    simp [h1, h2]
  · intro s op h2
    rw [op_apply_target_history s op]
    cases hx : (Op.apply s op).2 with
    | none => exact absurd hx h2
    | some e => simp [hx]
  · intro s op h1
    rw [op_apply_target_history s op]
    simp [h1]
  · intro s ops
    induction ops generalizing s with
    | nil => simp [run_ops, count_tactic_successes]
    | cons op rest ih =>
      simp only [run_ops, count_tactic_successes]
      rw [ih ((Op.apply s op).1)]
      have hl := congrArg List.length (op_apply_target_history s op)
      by_cases hc : (op.isTactic && (Op.apply s op).2.isNone) = true <;>
        (simp [hc] at hl; simp [hc, hl]; try omega)

/-- Witness for C8: a successful `instantiate_implication` on the target
`P(x) → Q(x)` pushes exactly the pre-call target list. -/
theorem claim_C8_witness :
    Op.isTactic Op.instImplication = true ∧
    (Op.apply W8 Op.instImplication).2 = none ∧
    (Op.apply W8 Op.instImplication).1.target_history
      = W8.target_history ++ [W8.targets] :=
  ⟨rfl, rfl, claim_C8_history_discipline.1 W8 Op.instImplication rfl rfl⟩

/-- C9.  Every tuple renders as the string `?` (the source's tuple branch
builds its output but never returns it), so any two tuples compare equal
under the engine's rendered-text comparison, and term-pattern substitution
replaces any tuple node whenever the pattern is any tuple. -/
theorem claim_C9_tuple_rendering :
    (∀ args : List Term, Term.null_free_list args = true →
        Term.toString (Term.tuple args) = "?") ∧
    (∀ args1 args2 : List Term,
        Term.toString (Term.tuple args1) = Term.toString (Term.tuple args2)) ∧
    (∀ (args1 args2 : List Term) (rep : Term), Term.null_free_list args1 = true →
        substitute_term_in_term (Term.tuple args1) (Term.tuple args2) rep = rep) := by
  refine ⟨fun args _ => by simp [Term.toString], fun a1 a2 => by simp [Term.toString], ?_⟩
  intro a1 a2 rep _
  simp [substitute_term_in_term, Term.toString]

/-- Witness for C9: the tuple `(v1)` renders as `?` and is replaced by the
empty-tuple pattern. -/
theorem claim_C9_witness :
    Term.null_free_list [Term.var "v1"] = true ∧
    Term.toString (Term.tuple [Term.var "v1"]) = "?" ∧
    substitute_term_in_term (Term.tuple [Term.var "v1"]) (Term.tuple []) (Term.const "9")
      = Term.const "9" := by
  have h : Term.null_free_list [Term.var "v1"] = true := by
    simp [Term.null_free_list, Term.null_free]
  exact ⟨h, claim_C9_tuple_rendering.1 [Term.var "v1"] h,
    claim_C9_tuple_rendering.2.2 [Term.var "v1"] [] (Term.const "9") h⟩

/-- C10.  `Term::is_well_formed` returns `false` for every tuple, whatever
its elements (which are not even visited), and leaves the `err`
out-parameter unset: no diagnostic message is written for the tuple
variant. -/
theorem claim_C10_tuple_never_well_formed :
    ∀ args : List Term, Term.is_well_formed (Term.tuple args) = (false, none) := by
  intro args
  simp [Term.is_well_formed]

end ProofSystem
